import Mathlib

/-!
Verification of the ETL core of `etl.py` (song-play star-schema pipeline).

The Python source is shallowly embedded: each processing function of
`etl.py` becomes a Lean function over explicit record types, the psycopg2
cursor/connection side effects become an explicit trace of storage events
(row submissions and commits), and the external SQL lookup used by the
Foreign Key Resolver becomes a function parameter returning an optional
(song_id, artist_id) pair.
-/

/-- One raw line of a song-source file.  Song and artist attributes are
co-resident in the same JSON object, exactly the columns `process_song_file`
projects at `etl.py` lines 22 and 26. -/
structure SongSourceRecord where
  song_id : String
  title : String
  artist_id : String
  year : Int
  duration : Rat
  artist_name : String
  artist_location : String
  artist_latitude : Option Rat
  artist_longitude : Option Rat
deriving DecidableEq

/-- One usage-log event (one JSON line of a log file), with the fields
`process_log_file` reads.  `ts` is epoch milliseconds, already numeric. -/
structure LogEvent where
  ts : Int
  page : String
  userId : String
  firstName : String
  lastName : String
  gender : String
  level : String
  song : String
  artist : String
  length : Rat
  sessionId : Int
  location : String
  userAgent : String
deriving DecidableEq

/-- Row shape inserted by `cur.execute(song_table_insert, song_data)`
(`etl.py` lines 22-23): columns song_id, title, artist_id, year, duration. -/
structure SongDimensionRow where
  song_id : String
  title : String
  artist_id : String
  year : Int
  duration : Rat
deriving DecidableEq

/-- Row shape inserted by `cur.execute(artist_table_insert, artist_data)`
(`etl.py` lines 26-27). -/
structure ArtistDimensionRow where
  artist_id : String
  artist_name : String
  artist_location : String
  artist_latitude : Option Rat
  artist_longitude : Option Rat
deriving DecidableEq

/-- Row shape inserted by `cur.execute(user_table_insert, row)`
(`etl.py` lines 61-65): columns userId, firstName, lastName, gender, level. -/
structure UserDimensionRow where
  userId : String
  firstName : String
  lastName : String
  gender : String
  level : String
deriving DecidableEq

/-- Row shape of the `time_df` frame built at `etl.py` lines 52-58, with the
column labels of line 54: start_time, hour, day, week, month, year, weekday. -/
structure TimeDimensionRow where
  start_time : Int
  hour : Int
  day : Int
  week : Int
  month : Int
  year : Int
  weekday : Int
deriving DecidableEq

/-- Row shape inserted by `cur.execute(songplay_table_insert, songplay_data)`
(`etl.py` lines 80-81).  song_id and artist_id are nullable. -/
structure SongplayFactRow where
  start_time : Int
  userId : String
  level : String
  song_id : Option String
  artist_id : Option String
  sessionId : Int
  location : String
  userAgent : String
deriving DecidableEq

/-! ## Time derivation (UTC, millisecond precision)

Line 49 of `etl.py`, `pd.to_datetime` with unit "ms", interprets the
integer as milliseconds since the Unix epoch in UTC; the `.dt` accessors of
line 53 then read the proleptic-Gregorian calendar fields.  We embed the
conversion with floor division (`Int.fdiv`) and Euclidean remainder so that
pre-epoch instants behave as pandas does. -/

/-- Civil (proleptic Gregorian) date of a day number, day 0 = 1970-01-01.
Standard era/day-of-era decomposition; all interior divisions act on
non-negative values. -/
def civilFromDays (z0 : Int) : Int × Int × Int :=
  let z := z0 + 719468
  let era := Int.fdiv z 146097
  let doe := z - era * 146097
  let yoe := Int.fdiv (doe - Int.fdiv doe 1460 + Int.fdiv doe 36524 - Int.fdiv doe 146096) 365
  let y := yoe + era * 400
  let doy := doe - (365 * yoe + Int.fdiv yoe 4 - Int.fdiv yoe 100)
  let mp := Int.fdiv (5 * doy + 2) 153
  let d := doy - Int.fdiv (153 * mp + 2) 5 + 1
  let m := mp + (if mp < 10 then 3 else -9)
  (y + (if m ≤ 2 then 1 else 0), m, d)

/-- Day number (days since 1970-01-01) of a millisecond instant. -/
def tsDays (ms : Int) : Int := Int.fdiv ms 86400000

/-- Milliseconds elapsed within the UTC day of the instant. -/
def tsMsOfDay (ms : Int) : Int := Int.emod ms 86400000

/-- Embeds the pandas accessor dt.hour of the instant. -/
def tsHour (ms : Int) : Int := Int.fdiv (tsMsOfDay ms) 3600000

/-- Embeds the pandas accessor dt.year of the instant. -/
def tsYear (ms : Int) : Int := (civilFromDays (tsDays ms)).1

/-- Embeds the pandas accessor dt.month of the instant. -/
def tsMonth (ms : Int) : Int := (civilFromDays (tsDays ms)).2.1

/-- Embeds the pandas accessor dt.day (day of month) of the instant. -/
def tsDay (ms : Int) : Int := (civilFromDays (tsDays ms)).2.2

/-- Embeds the pandas accessors dt.dayofweek and dt.weekday: both
return Monday = 0 .. Sunday = 6.  Day 0 (1970-01-01) was a
Thursday, hence the +3 shift. -/
def tsDayOfWeek (ms : Int) : Int := Int.emod (tsDays ms + 3) 7

/-! ## Record mappers (`process_song_file`, `process_log_file`) -/

/-- A row handed to `cur.execute(<table>_insert, ...)`, tagged by table. -/
inductive Row
  | song (r : SongDimensionRow)
  | artist (r : ArtistDimensionRow)
  | user (r : UserDimensionRow)
  | time (r : TimeDimensionRow)
  | songplay (r : SongplayFactRow)
deriving DecidableEq

def Row.isSong : Row → Bool
  | Row.song _ => true
  | _ => false

def Row.isArtist : Row → Bool
  | Row.artist _ => true
  | _ => false

def Row.isUser : Row → Bool
  | Row.user _ => true
  | _ => false

def Row.isTime : Row → Bool
  | Row.time _ => true
  | _ => false

def Row.isSongplay : Row → Bool
  | Row.songplay _ => true
  | _ => false

/-- Embeds line 22 of `etl.py`:
`song_data = df[[..song columns..]].values[0].tolist()`. -/
def songRowOf (r : SongSourceRecord) : SongDimensionRow :=
  { song_id := r.song_id, title := r.title, artist_id := r.artist_id,
    year := r.year, duration := r.duration }

/-- Embeds line 26 of `etl.py`:
`artist_data = df[[..artist columns..]].values[0].tolist()`. -/
def artistRowOf (r : SongSourceRecord) : ArtistDimensionRow :=
  { artist_id := r.artist_id, artist_name := r.artist_name,
    artist_location := r.artist_location, artist_latitude := r.artist_latitude,
    artist_longitude := r.artist_longitude }

/-- Embeds `process_song_file` (`etl.py` lines 7-27): reads the file into a frame
and inserts `values[0]` of the song projection, then `values[0]` of the
artist projection.  `values[0]` on an empty frame raises (IndexError), hence
`none` on an empty unit; records after the first are never read. -/
def process_song_file (records : List SongSourceRecord) : Option (List Row) :=
  match records with
  | [] => none
  | r :: _ => some [Row.song (songRowOf r), Row.artist (artistRowOf r)]

/-- Embeds line 46 of `etl.py`: the frame is filtered to the rows whose
page column equals "NextSong". -/
def nextSongEvents (events : List LogEvent) : List LogEvent :=
  events.filter (fun e => e.page == "NextSong")

/-- One row of the `time_df` frame built at `etl.py` lines 52-58.  The seven
columns, in the order of line 53, are the timestamp and its dt.hour,
dt.day, dt.dayofweek, dt.month, dt.year, dt.weekday accessors, labelled
start_time, hour, day, week, month, year, weekday by line 54.  So the
column labelled week receives dayofweek, not a week-of-year value. -/
def timeRowOfTs (ms : Int) : TimeDimensionRow :=
  { start_time := ms, hour := tsHour ms, day := tsDay ms,
    week := tsDayOfWeek ms, month := tsMonth ms, year := tsYear ms,
    weekday := tsDayOfWeek ms }

/-- The `time_df` frame of `etl.py` lines 52-58: one row per filtered event.
The source constructs this frame but contains no `cur.execute` for it — no
time-table insert statement is ever issued by `process_log_file`. -/
def time_df (events : List LogEvent) : List TimeDimensionRow :=
  (nextSongEvents events).map (fun e => timeRowOfTs e.ts)

/-- One row of the user frame projected at line 61 of `etl.py`:
columns userId, firstName, lastName, gender, level. -/
def userRowOf (e : LogEvent) : UserDimensionRow :=
  { userId := e.userId, firstName := e.firstName, lastName := e.lastName,
    gender := e.gender, level := e.level }

/-- The songplay row built at `etl.py` lines 70-80 for one filtered event:
`song_select` is executed with (row.song, row.artist, row.length), `fetchone`
yields either a (songid, artistid) pair or nothing, and the unpacking
the two-way branch on `results` at lines 74-77
sets both ids or neither.  The lookup itself lives in `sql_queries.py`
(external to this core), so it is a parameter here. -/
def songplayRowOf (lookup : String → String → Rat → Option (String × String))
    (e : LogEvent) : SongplayFactRow :=
  match lookup e.song e.artist e.length with
  | some (songid, artistid) =>
      { start_time := e.ts, userId := e.userId, level := e.level,
        song_id := some songid, artist_id := some artistid,
        sessionId := e.sessionId, location := e.location,
        userAgent := e.userAgent }
  | none =>
      { start_time := e.ts, userId := e.userId, level := e.level,
        song_id := none, artist_id := none,
        sessionId := e.sessionId, location := e.location,
        userAgent := e.userAgent }

/-- Embeds `process_log_file` (`etl.py` lines 30-81), as the sequence of rows it
hands to `cur.execute` in source order: the frame is filtered to NextSong
events (line 46), `time_df` is built (lines 50-58) but no insert is executed
for it, then one user row is inserted per filtered event (lines 64-65), then
one songplay row per filtered event (lines 68-81). -/
def process_log_file (lookup : String → String → Rat → Option (String × String))
    (events : List LogEvent) : List Row :=
  let df := nextSongEvents events
  let _t := time_df events
  (df.map (fun e => Row.user (userRowOf e)))
    ++ (df.map (fun e => Row.songplay (songplayRowOf lookup e)))

/-! ## Ingestion orchestrator (`process_data`) -/

/-- An observable interaction with the storage collaborator. -/
inductive StorageEvent
  | submit (r : Row)
  | commit
deriving DecidableEq

/-- The behaviour of one source unit under its mapper: the rows it submits
in order, and `some e` if an uncaught exception is raised after those
submissions (the Python functions have no try/except, so an error surfaces
after whatever inserts already executed). -/
abbrev UnitRun := List Row × Option String

/-- Embeds `process_data` (`etl.py` lines 84-117), restricted to its loop
(lines 114-117): for each file in order, `func(cur, datafile)` runs and then
`conn.commit()` runs; an exception raised by either propagates out of the
loop uncaught, so later files are neither processed nor committed.  The
trace of storage events and the propagated error (if any) are returned. -/
def process_data (units : List UnitRun) : List StorageEvent × Option String :=
  match units with
  | [] => ([], none)
  | (rows, err) :: rest =>
    match err with
    | some e => (rows.map StorageEvent.submit, some e)
    | none =>
      let tail := process_data rest
      (rows.map StorageEvent.submit ++ [StorageEvent.commit] ++ tail.1, tail.2)

/-! ## Spec-side comparison definitions -/

/-- Modelled from the spec: "week is ISO week-of-year" (§4.2).  ISO 8601
week number of the day numbered `z` (day 0 = 1970-01-01): locate the
Thursday of the Monday-based week containing `z` and count weeks within the
civil year of that Thursday.  Used only to compare the week column the
source produces against the spec. -/
def isoWeekOfYear (z : Int) : Int :=
  let isoDow := Int.emod (z + 3) 7 + 1
  let thursday := z + 4 - isoDow
  let c := civilFromDays thursday
  let leap : Int → Bool := fun y =>
    (Int.emod y 4 == 0 && Int.emod y 100 != 0) || Int.emod y 400 == 0
  let t : Int := if leap c.1 then 1 else 0
  let before : Int :=
    if c.2.1 = 1 then 0 else if c.2.1 = 2 then 31
    else if c.2.1 = 3 then 59 + t else if c.2.1 = 4 then 90 + t
    else if c.2.1 = 5 then 120 + t else if c.2.1 = 6 then 151 + t
    else if c.2.1 = 7 then 181 + t else if c.2.1 = 8 then 212 + t
    else if c.2.1 = 9 then 243 + t else if c.2.1 = 10 then 273 + t
    else if c.2.1 = 11 then 304 + t else 334 + t
  let doy := c.2.2 + before
  Int.fdiv (doy - 1) 7 + 1

/-! ## Model of the pandas timestamp-input handling at line 49 -/

/-- A raw `ts` cell as pandas sees it: numeric, or some non-numeric value. -/
inductive RawTsValue
  | num (ms : Int)
  | nonNumeric (s : String)
deriving DecidableEq

/-- Embeds the input handling of `pd.to_datetime` with unit "ms"
(`etl.py` line 49) on one cell:
a numeric value is multiplied by 10^6 into a 64-bit nanosecond count and
accepted whenever that count is representable (pandas raises
OutOfBoundsDatetime past Timestamp.min/max, whose values are
-(2^63)+1 and 2^63-1 ns); negative milliseconds are valid pre-epoch
instants.  A non-numeric value raises ValueError. -/
def to_datetime_ms (v : RawTsValue) : Option Int :=
  match v with
  | RawTsValue.num ms =>
      if -(2 ^ 63) < ms * 1000000 ∧ ms * 1000000 < 2 ^ 63 then some ms else none
  | RawTsValue.nonNumeric _ => none

/-! ## Concrete test fixtures -/

/-- A lookup in which no dimension row matches (empty song/artist store). -/
def lookupNone : String → String → Rat → Option (String × String) :=
  fun _ _ _ => none

/-- A lookup in which every triple matches one fixed dimension pair. -/
def lookupHit : String → String → Rat → Option (String × String) :=
  fun _ _ _ => some ("SOZCTXZ12AB0182364", "AR5KOSW1187FB35FF4")

/-- A concrete eligible log event (page = "NextSong") whose timestamp is the
millisecond instant named by the spec, 1541990258796. -/
def sampleNextSong : LogEvent :=
  { ts := 1541990258796, page := "NextSong", userId := "91",
    firstName := "Jayden", lastName := "Bell", gender := "M", level := "free",
    song := "Intro", artist := "The Smiths", length := 85,
    sessionId := 829, location := "Dallas-Fort Worth-Arlington, TX",
    userAgent := "Mozilla" }

/-- A concrete ineligible log event (page = "Home"). -/
def sampleHome : LogEvent :=
  { sampleNextSong with page := "Home", ts := 1541990217796 }

/-! ## Shared lemmas -/

theorem nextSongEvents_idem (events : List LogEvent) :
    nextSongEvents (nextSongEvents events) = nextSongEvents events := by
  simp [nextSongEvents, List.filter_filter]

theorem count_commit_in_submits (rows : List Row) :
    (rows.map StorageEvent.submit).count StorageEvent.commit = 0 := by
  apply List.count_eq_zero.mpr
  intro h
  rcases List.mem_map.mp h with ⟨r, _, hr⟩
  exact StorageEvent.noConfusion hr

/-! ## Claim theorems -/

/-- C1: the claim states that one TimeDimensionRow is handed to the storage
collaborator per NextSong event, with the time-table row count equal to the
NextSong count.  The code violates this: `process_log_file` builds the
time frame (lines 50-58) but executes no insert for it, so zero time rows
are ever submitted — here stated generally, and at a unit holding exactly
one NextSong event, where the time frame has one row but the submitted
trace has none. -/
theorem time_rows_are_built_but_never_submitted :
    (∀ (lookup : String → String → Rat → Option (String × String))
       (events : List LogEvent),
       (process_log_file lookup events).countP Row.isTime = 0) ∧
    (process_log_file lookupNone [sampleNextSong]).countP Row.isTime = 0 ∧
    (nextSongEvents [sampleNextSong]).length = 1 ∧
    (time_df [sampleNextSong]).length = 1 := by
  refine ⟨?_, by decide, by decide, by decide⟩
  intro lookup events
  simp [process_log_file, List.countP_append, List.countP_map, Function.comp,
    Row.isTime]

/-- C2: the claim states the week field of every derived time row is the
ISO week-of-year.  The code violates this: line 53 places dt.dayofweek in
the column labelled week, so at the spec-named instant 1541990258796 ms
(2018-11-12, a Monday) the week field is 0 — equal to the weekday field —
while the ISO week-of-year of that date is 46. -/
theorem week_field_is_dayofweek_not_iso_week :
    (timeRowOfTs 1541990258796).week = 0 ∧
    (timeRowOfTs 1541990258796).weekday = 0 ∧
    isoWeekOfYear (tsDays 1541990258796) = 46 ∧
    (timeRowOfTs 1541990258796).week ≠ isoWeekOfYear (tsDays 1541990258796) := by
  refine ⟨by decide, by decide, by decide, by decide⟩

/-- C3: for every log event turned into a songplay row, either both song_id
and artist_id are present (the lookup matched) or both are absent (the
lookup returned nothing); never exactly one, and a missed lookup still
yields a row rather than a failure. -/
theorem resolution_all_or_nothing :
    ∀ (lookup : String → String → Rat → Option (String × String))
      (e : LogEvent),
      ((songplayRowOf lookup e).song_id = none ∧
        (songplayRowOf lookup e).artist_id = none) ∨
      (∃ s a, (songplayRowOf lookup e).song_id = some s ∧
        (songplayRowOf lookup e).artist_id = some a) := by
  intro lookup e
  cases h : lookup e.song e.artist e.length with
  | none => exact Or.inl ⟨by simp [songplayRowOf, h], by simp [songplayRowOf, h]⟩
  | some p =>
      exact Or.inr ⟨p.1, p.2, by simp [songplayRowOf, h], by simp [songplayRowOf, h]⟩

/-- C4: for every log-source unit, the number of user rows and the number of
songplay rows submitted each equal the count of events with
page = "NextSong", and events with any other page value contribute nothing:
processing a unit equals processing just its NextSong events. -/
theorem log_filtering_counts :
    ∀ (lookup : String → String → Rat → Option (String × String))
      (events : List LogEvent),
      (process_log_file lookup events).countP Row.isUser =
        (nextSongEvents events).length ∧
      (process_log_file lookup events).countP Row.isSongplay =
        (nextSongEvents events).length ∧
      process_log_file lookup events =
        process_log_file lookup (nextSongEvents events) := by
  intro lookup events
  refine ⟨?_, ?_, ?_⟩
  · simp [process_log_file, List.countP_append, List.countP_map,
      Function.comp_def, Row.isUser, Row.isSongplay]
  · simp [process_log_file, List.countP_append, List.countP_map,
      Function.comp_def, Row.isUser, Row.isSongplay]
  · simp [process_log_file, time_df, nextSongEvents_idem]

/-- C5: for every sequence of units that all succeed, the orchestrator trace
is exactly, unit by unit in presentation order, the submissions of that unit
followed by one commit, before anything of the next unit; in particular the
number of commits equals the number of units. -/
theorem one_commit_per_unit_in_order :
    ∀ units : List (List Row),
      process_data (units.map (fun rows => (rows, (none : Option String)))) =
        ((units.map (fun rows =>
            rows.map StorageEvent.submit ++ [StorageEvent.commit])).flatten,
          none) ∧
      ((units.map (fun rows =>
          rows.map StorageEvent.submit ++ [StorageEvent.commit])).flatten.count
        StorageEvent.commit) = units.length := by
  intro units
  constructor
  · induction units with
    | nil => rfl
    | cons u rest ih => simp [process_data, ih]
  · induction units with
    | nil => rfl
    | cons u rest ih =>
        simp [List.count_append, ih, count_commit_in_submits]

/-- C6: for every nonempty song-source unit, mapping emits exactly one song
row and one artist row, both projected from the first (and in the valid
case only) record, and the artist_id fields of the two rows agree. -/
theorem song_unit_split :
    ∀ (r : SongSourceRecord) (rest : List SongSourceRecord),
      process_song_file (r :: rest) =
        some [Row.song (songRowOf r), Row.artist (artistRowOf r)] ∧
      (songRowOf r).artist_id = (artistRowOf r).artist_id ∧
      [Row.song (songRowOf r), Row.artist (artistRowOf r)].countP Row.isSong = 1 ∧
      [Row.song (songRowOf r), Row.artist (artistRowOf r)].countP Row.isArtist = 1 := by
  intro r rest
  exact ⟨rfl, rfl, rfl, rfl⟩

/-- C7: time derivation is a pure function of the millisecond instant — every
field of the derived row is determined by the timestamp alone, so repeated
derivation is identical — and at the spec-named instant 1541990258796 ms the
UTC derivation yields year 2018, month 11, day 12. -/
theorem time_derivation_deterministic_utc :
    tsYear 1541990258796 = 2018 ∧
    tsMonth 1541990258796 = 11 ∧
    tsDay 1541990258796 = 12 ∧
    ∀ ms : Int, timeRowOfTs ms =
      { start_time := ms, hour := tsHour ms, day := tsDay ms,
        week := tsDayOfWeek ms, month := tsMonth ms, year := tsYear ms,
        weekday := tsDayOfWeek ms } := by
  exact ⟨by decide, by decide, by decide, fun ms => rfl⟩

/-- C8: when the units before position k all succeed and unit k raises, the
run trace consists of the fully committed traces of the units before k
followed by the submissions unit k made before raising — no commit for
unit k, no event from any later unit — and the error surfaces at the
orchestrator boundary unchanged. -/
theorem first_failure_aborts_run :
    ∀ (pre : List (List Row)) (rows : List Row) (e : String)
      (post : List UnitRun),
      process_data
          ((pre.map fun rs => (rs, (none : Option String)))
            ++ (rows, some e) :: post) =
        ((pre.map fun rs =>
            rs.map StorageEvent.submit ++ [StorageEvent.commit]).flatten
          ++ rows.map StorageEvent.submit, some e) := by
  intro pre rows e post
  induction pre with
  | nil => rfl
  | cons u rest ih => simp [process_data, ih]

/-- C9 counterexample: the claim states every negative ts fails the
conversion; in the code a negative millisecond value is a valid pre-epoch
instant — the conversion succeeds at -1000 ms and derives 1969-12-31 —
while a non-negative value whose nanosecond count overflows 64 bits fails,
contradicting the claim in both directions. -/
theorem negative_ts_accepted_by_to_datetime :
    to_datetime_ms (RawTsValue.num (-1000)) = some (-1000) ∧
    tsYear (-1000) = 1969 ∧ tsMonth (-1000) = 12 ∧ tsDay (-1000) = 31 ∧
    to_datetime_ms (RawTsValue.num (2 ^ 70)) = none := by
  refine ⟨by decide, by decide, by decide, by decide, by decide⟩

/-- C9 (amended): the conversion of a raw ts cell succeeds exactly when the
cell is numeric and its nanosecond count fits the representable 64-bit
range; in particular non-numeric input fails, out-of-range numeric input
fails, and every in-range numeric input — negative included — succeeds. -/
theorem ts_conversion_failure_mode :
    ∀ v : RawTsValue,
      (to_datetime_ms v).isSome = true ↔
        ∃ ms : Int, v = RawTsValue.num ms ∧
          -(2 ^ 63) < ms * 1000000 ∧ ms * 1000000 < 2 ^ 63 := by
  intro v
  cases v with
  | num ms =>
      by_cases h : -(2 ^ 63) < ms * 1000000 ∧ ms * 1000000 < 2 ^ 63
      · simp [to_datetime_ms, h]
      · simp [to_datetime_ms, h]
  | nonNumeric s => simp [to_datetime_ms]

/-- C9 witness: the conversion criterion evaluated at the concrete
spec-named timestamp. -/
theorem ts_conversion_failure_mode_witness :
    (to_datetime_ms (RawTsValue.num 1541990258796)).isSome = true :=
  (ts_conversion_failure_mode (RawTsValue.num 1541990258796)).mpr
    ⟨1541990258796, rfl, by decide, by decide⟩

/-- C10: for every song-source unit with at least one record, processing the
unit equals processing only its first record — records after the first are
ignored without error, and the unit still produces its rows. -/
theorem only_first_song_record_processed :
    ∀ (r : SongSourceRecord) (rest : List SongSourceRecord),
      process_song_file (r :: rest) = process_song_file [r] ∧
      (process_song_file (r :: rest)).isSome = true := by
  intro r rest
  exact ⟨rfl, rfl⟩
